import Mathlib

/-
Verification of the whatspoppingABQ traffic/event correlation pipeline.

Shallow embedding of the pure computational core of the repository:
  * collectors/traffic_collection_rules.py   (collection planner)
  * collectors/baseline_schedule.py          (baseline scheduler)
  * collectors/tomtom_event_traffic_collector.py (event scheduler)
  * collectors/tomtom_routing_collector.py   (vendor traffic client)
  * database/db_utils.py                     (event upsert / measurement insert)
  * analysis/event_traffic_correlation.py    (correlation engine + reporting)

Machine floats are modelled by exact rationals, Python dicts by structures
with Option-valued fields (None = missing key), datetimes by explicit
integer minute offsets (plus weekday/hour components where the code reads
them), and the relational store by an in-memory list of rows.
-/

namespace WhatsPopping

attribute [local semireducible] Rat.mul Rat.inv Rat.add Rat.sub

/-! ## Python numeric helpers -/

/-- Python `round` to an integer: round-half-to-even (banker's rounding). -/
def pyRound (x : ℚ) : ℤ :=
  if x - ⌊x⌋ = 1 / 2 then (if Even ⌊x⌋ then ⌊x⌋ else ⌊x⌋ + 1) else round x

/-- Python `round(x, 2)`: round to the nearest multiple of 1/100. -/
def round2 (x : ℚ) : ℚ := (pyRound (x * 100) : ℚ) / 100

/-- Truthiness of a Python string-or-None value: `None` and `""` are falsy. -/
def pyTruthyStr : Option String → Bool
  | none => false
  | some s => !s.isEmpty

/-- Python `needle in haystack` on strings: substring containment. -/
def pyIn (needle haystack : String) : Bool :=
  decide (needle.toList <:+: haystack.toList)

/-- Python `str.lower()`, character by character. -/
def pyLower (s : String) : String := ⟨s.data.map Char.toLower⟩

/-! ## collectors/traffic_collection_rules.py -/

/-- Major event categories (collect before + after). -/
def MAJOR_CATEGORIES : List String :=
  ["Sports", "Sports/Fitness", "Festival", "Festivals & Special Events",
   "Music", "Concerts & Music"]

/-- Minor event categories (collect before only). -/
def MINOR_CATEGORIES : List String :=
  ["General", "Arts & Culture", "Theater", "Food & Drink", "Food, Wine & Beer"]

/-- The slice of an event dict read by `get_collection_plan`. -/
structure PlannerEvent where
  event_start_time : Option String := none
  category : Option String := none
  is_multi_day : Bool := false
deriving DecidableEq

/-- `is_major_event`: `any(cat.lower() in category.lower() for cat in MAJOR_CATEGORIES)`. -/
def is_major_event (category : String) : Bool :=
  MAJOR_CATEGORIES.any (fun cat => pyIn (pyLower cat) (pyLower category))

/-- The collection-plan dict; fields absent from a branch's dict are `none`. -/
structure CollectionPlan where
  collect : Bool
  reason : Option String := none
  plan_type : Option String := none
  collect_before : Option Bool := none
  collect_after : Option Bool := none
  hours_before : Option ℕ := none
  hours_after : Option ℕ := none
  num_directions : Option ℕ := none
  directions : Option (List String) := none
  estimated_calls : Option ℕ := none
deriving DecidableEq

/-- `get_collection_plan` from collectors/traffic_collection_rules.py. -/
def get_collection_plan (event : PlannerEvent) : CollectionPlan :=
  if !pyTruthyStr event.event_start_time then
    { collect := false, reason := some "No event time available" }
  else
    let is_major := is_major_event (event.category.getD "")
    if event.is_multi_day then
      if is_major then
        { collect := true, plan_type := some "major_multi_day",
          collect_before := some true, collect_after := some true,
          hours_before := some 1, hours_after := some 1,
          num_directions := some 4,
          directions := some ["North", "South", "East", "West"],
          estimated_calls := some 8 }
      else
        { collect := true, plan_type := some "minor_multi_day",
          collect_before := some true, collect_after := some false,
          hours_before := some 1,
          num_directions := some 2,
          directions := some ["North", "South"],
          estimated_calls := some 2 }
    else
      if is_major then
        { collect := true, plan_type := some "major_single_day",
          collect_before := some true, collect_after := some true,
          hours_before := some 1, hours_after := some 1,
          num_directions := some 4,
          directions := some ["North", "South", "East", "West"],
          estimated_calls := some 8 }
      else
        { collect := true, plan_type := some "minor_single_day",
          collect_before := some true, collect_after := some false,
          hours_before := some 1,
          num_directions := some 2,
          directions := some ["North", "South"],
          estimated_calls := some 2 }

/-! ## collectors/baseline_schedule.py -/

/-- Baseline collection time slots. -/
def BASELINE_TIME_SLOTS : List String :=
  ["07:00", "12:00", "17:00", "19:00", "21:00", "23:00"]

/-- Python `int` on a digit string. -/
def parseNatChars (cs : List Char) : ℕ :=
  cs.foldl (fun n c => n * 10 + (c.toNat - 48)) 0

/-- `time_slot.split(':')` for a single separator occurrence. -/
def splitColon (cs : List Char) : List Char × List Char :=
  match cs with
  | [] => ([], [])
  | c :: rest =>
    if c = ':' then (([] : List Char), rest)
    else
      let p := splitColon rest
      (c :: p.1, p.2)

/-- `slot_hour, slot_minute = map(int, time_slot.split(':'))`, as minutes. -/
def slotMinutes (slot : String) : ℤ :=
  (parseNatChars (splitColon slot.data).1 : ℤ) * 60 +
    (parseNatChars (splitColon slot.data).2 : ℤ)

/-- `get_current_baseline_group`, with the wall-clock day of month explicit. -/
def get_current_baseline_group (day_of_month : ℕ) : Option ℕ :=
  if 1 ≤ day_of_month ∧ day_of_month ≤ 7 then some 1
  else if 8 ≤ day_of_month ∧ day_of_month ≤ 14 then some 2
  else if 15 ≤ day_of_month ∧ day_of_month ≤ 21 then some 3
  else if 22 ≤ day_of_month ∧ day_of_month ≤ 31 then some 4
  else none

/-- `should_collect_baseline_now`, with the wall clock (day, hour, minute)
explicit.  Returns `(should_collect, group, time_slot)`. -/
def should_collect_baseline_now (day_of_month hour minute : ℕ) :
    Bool × Option ℕ × Option String :=
  match get_current_baseline_group day_of_month with
  | none => (false, none, none)
  | some group =>
    match BASELINE_TIME_SLOTS.find?
        (fun slot => ((hour * 60 + minute : ℤ) - slotMinutes slot).natAbs ≤ 15) with
    | some slot => (true, some group, some slot)
    | none => (false, some group, none)

/-! ## collectors/tomtom_event_traffic_collector.py -/

/-- Collection points: minutes from now until event start. -/
def collection_points : List ℤ := [-120, -90, -60, -30, 0, 30, 60, 90, 120]

/-- The decision dict returned by `should_collect_now_tomtom`. -/
structure TomTomDecision where
  collect : Bool
  window : Option String := none
  collection_point : Option ℤ := none
deriving DecidableEq

/-- `should_collect_now_tomtom`, as a function of
`time_diff_minutes = (event_datetime - now).total_seconds() / 60`. -/
def should_collect_now_tomtom (time_diff_minutes : ℚ) : TomTomDecision :=
  match collection_points.find?
      (fun (target_minutes : ℤ) => |time_diff_minutes - (target_minutes : ℚ)| ≤ 15) with
  | some target_minutes =>
    let window :=
      if target_minutes < -15 then "before"
      else if target_minutes > 15 then "after"
      else "during"
    { collect := true, window := some window, collection_point := some target_minutes }
  | none => { collect := false }

/-! ## collectors/tomtom_routing_collector.py -/

/-- The `summary` object of the first route in the TomTom response;
`none` marks a missing JSON key (the code uses `.get` with defaults). -/
structure RouteSummary where
  lengthInMeters : Option ℚ := none
  travelTimeInSeconds : Option ℚ := none
  noTrafficTravelTimeInSeconds : Option ℚ := none
deriving DecidableEq

/-- The measurement dict built by `measure_traffic_tomtom`. -/
structure TomTomMeasurement where
  measurement_time : ℤ
  traffic_level : String
  avg_speed_mph : ℚ
  typical_speed_mph : ℚ
  travel_time_seconds : ℚ
  typical_time_seconds : ℚ
  delay_minutes : ℚ
  origin_lat : ℚ
  origin_lng : ℚ
  destination_lat : ℚ
  destination_lng : ℚ
  distance_miles : ℚ
  data_source : String
deriving DecidableEq

/-- Pure core of `measure_traffic_tomtom`: from the route summary of a
successful response to the measurement dict (`now` is `datetime.now()`). -/
def measure_traffic_tomtom (now : ℤ) (origin_lat origin_lng dest_lat dest_lng : ℚ)
    (summary : RouteSummary) : TomTomMeasurement :=
  let distance_meters := summary.lengthInMeters.getD 0
  let distance_miles := distance_meters * (621371 / 1000000000)
  let travel_time_seconds := summary.travelTimeInSeconds.getD 0
  let no_traffic_time_seconds := summary.noTrafficTravelTimeInSeconds.getD travel_time_seconds
  let avg_speed_mph :=
    if travel_time_seconds > 0 then distance_miles / travel_time_seconds * 3600 else 0
  let typical_speed_mph :=
    if no_traffic_time_seconds > 0 then distance_miles / no_traffic_time_seconds * 3600
    else avg_speed_mph
  let delay_seconds := travel_time_seconds - no_traffic_time_seconds
  let delay_minutes := delay_seconds / 60
  let traffic_level :=
    if delay_minutes < 1 / 2 then "light"
    else if delay_minutes < 2 then "moderate"
    else if delay_minutes < 5 then "heavy"
    else "severe"
  { measurement_time := now
    traffic_level := traffic_level
    avg_speed_mph := round2 avg_speed_mph
    typical_speed_mph := round2 typical_speed_mph
    travel_time_seconds := travel_time_seconds
    typical_time_seconds := no_traffic_time_seconds
    delay_minutes := round2 delay_minutes
    origin_lat := origin_lat
    origin_lng := origin_lng
    destination_lat := dest_lat
    destination_lng := dest_lng
    distance_miles := round2 distance_miles
    data_source := "tomtom" }

/-! ## database/db_utils.py — traffic measurement insert -/

/-- The wall-clock timestamp components `insert_traffic_measurement` reads:
a linear ordering key plus Python `weekday()` (0=Mon..6=Sun) and `hour`. -/
structure Timestamp where
  t : ℤ
  weekday : ℕ
  hour : ℕ
deriving DecidableEq

/-- The `traffic_data` dict argument of `insert_traffic_measurement`;
`none` marks a missing key. -/
structure TrafficData where
  traffic_level : Option String := none
  avg_speed_mph : Option ℚ := none
  typical_speed_mph : Option ℚ := none
  travel_time_seconds : Option ℚ := none
  typical_time_seconds : Option ℚ := none
  delay_minutes : Option ℚ := none
  origin_lat : Option ℚ := none
  origin_lng : Option ℚ := none
  destination_lat : Option ℚ := none
  destination_lng : Option ℚ := none
  distance_miles : Option ℚ := none
  data_source : Option String := none
  raw_response : Option String := none
  is_baseline : Option Bool := none
  baseline_type : Option String := none
deriving DecidableEq

/-- A `measure_traffic_tomtom` result used as `traffic_data`
(`raw` is the verbatim `json.dumps(data)` payload). -/
def tomtomMeasurementData (m : TomTomMeasurement) (raw : String) : TrafficData :=
  { traffic_level := some m.traffic_level
    avg_speed_mph := some m.avg_speed_mph
    typical_speed_mph := some m.typical_speed_mph
    travel_time_seconds := some m.travel_time_seconds
    typical_time_seconds := some m.typical_time_seconds
    delay_minutes := some m.delay_minutes
    origin_lat := some m.origin_lat
    origin_lng := some m.origin_lng
    destination_lat := some m.destination_lat
    destination_lng := some m.destination_lng
    distance_miles := some m.distance_miles
    data_source := some m.data_source
    raw_response := some raw }

/-- A row of the `traffic_measurements` table. -/
structure TrafficRow where
  measurement_id : ℕ
  venue_id : ℕ
  event_id : Option ℕ
  measurement_time : Timestamp
  traffic_level : Option String
  avg_speed_mph : Option ℚ
  typical_speed_mph : Option ℚ
  travel_time_seconds : Option ℚ
  typical_time_seconds : Option ℚ
  delay_minutes : Option ℚ
  origin_lat : Option ℚ
  origin_lng : Option ℚ
  destination_lat : Option ℚ
  destination_lng : Option ℚ
  distance_miles : Option ℚ
  data_source : Option String
  raw_response : Option String
  is_baseline : Bool
  baseline_type : Option String
  day_of_week : ℕ
  hour_of_day : ℕ
deriving DecidableEq

/-- `insert_traffic_measurement`: append-only insert of a new fact row,
returning the new table and the `RETURNING measurement_id` value. -/
def insert_traffic_measurement (table : List TrafficRow) (venue_id : ℕ)
    (measurement_time : Timestamp) (traffic_data : TrafficData)
    (event_id : Option ℕ) : List TrafficRow × ℕ :=
  let day_of_week := (measurement_time.weekday + 1) % 7
  let hour_of_day := measurement_time.hour
  let is_baseline := traffic_data.is_baseline.getD false
  let baseline_type := if is_baseline then traffic_data.baseline_type else none
  let measurement_id := table.length + 1
  let row : TrafficRow :=
    { measurement_id := measurement_id
      venue_id := venue_id
      event_id := event_id
      measurement_time := measurement_time
      traffic_level := traffic_data.traffic_level
      avg_speed_mph := traffic_data.avg_speed_mph
      typical_speed_mph := traffic_data.typical_speed_mph
      travel_time_seconds := traffic_data.travel_time_seconds
      typical_time_seconds := traffic_data.typical_time_seconds
      delay_minutes := traffic_data.delay_minutes
      origin_lat := traffic_data.origin_lat
      origin_lng := traffic_data.origin_lng
      destination_lat := traffic_data.destination_lat
      destination_lng := traffic_data.destination_lng
      distance_miles := traffic_data.distance_miles
      data_source := some (traffic_data.data_source.getD "tomtom")
      raw_response := traffic_data.raw_response
      is_baseline := is_baseline
      baseline_type := baseline_type
      day_of_week := day_of_week
      hour_of_day := hour_of_day }
  (table ++ [row], measurement_id)

/-! ## analysis/event_traffic_correlation.py -/

/-- A traffic-measurement row as read back by `get_traffic_for_event`;
nullable columns are Options, `measurement_time` an integer time key. -/
structure Measurement where
  measurement_time : ℤ
  traffic_level : Option String := none
  avg_speed_mph : Option ℚ := none
  typical_speed_mph : Option ℚ := none
  delay_minutes : Option ℚ := none
  distance_miles : Option ℚ := none
deriving DecidableEq

/-- The slice of the event dict consumed by `analyze_event_impact`. -/
structure AnalysisEvent where
  event_id : ℕ
  event_name : String
  category : String
  venue_name : String
  traffic_measurements : List Measurement
deriving DecidableEq

/-- The per-half statistics dict produced by `calc_stats`. -/
structure Stats where
  count : ℕ
  avg_delay : Option ℚ
  max_delay : Option ℚ
  avg_speed : Option ℚ
  traffic_levels : List (Option String)
deriving DecidableEq

/-- `calc_stats` (inner helper of `analyze_event_impact`). -/
def calc_stats (measurements_list : List Measurement) : Option Stats :=
  if measurements_list = [] then none
  else
    let delays := measurements_list.filterMap (fun m => m.delay_minutes)
    let speeds := measurements_list.filterMap (fun m => m.avg_speed_mph)
    some
      { count := measurements_list.length
        avg_delay := if delays = [] then none else some (delays.sum / delays.length)
        max_delay := delays.max?
        avg_speed := if speeds = [] then none else some (speeds.sum / speeds.length)
        traffic_levels := measurements_list.map (fun m => m.traffic_level) }

/-- The `impact` dict: absent keys are `none`, `level` always present. -/
structure Impact where
  delay_increase : Option ℚ := none
  delay_increase_pct : Option ℚ := none
  speed_decrease : Option ℚ := none
  speed_decrease_pct : Option ℚ := none
  level : String := "unknown"
deriving DecidableEq

/-- The impact-level classification chain of `analyze_event_impact`. -/
def classify_delay_increase (delay_increase : ℚ) : String :=
  if delay_increase = 0 then "no impact"
  else if delay_increase > 5 then "severe"
  else if delay_increase > 2 then "high"
  else if delay_increase > 1 then "moderate"
  else if delay_increase > 0 then "low"
  else "no impact"

/-- `impact['level']`: classify when `delay_increase` is present, else unknown. -/
def impactLevel : Option ℚ → String
  | some d => classify_delay_increase d
  | none => "unknown"

/-- The impact-dict computation of `analyze_event_impact` (lines 158-193).
`none` models the uncaught `ZeroDivisionError` raised when both halves have
mean speeds and `before_stats['avg_speed'] == 0`. -/
def computeImpact (before_stats during_stats : Option Stats) : Option Impact :=
  match before_stats, during_stats with
  | some b, some d =>
    let delay_pair : Option (ℚ × ℚ) :=
      match b.avg_delay, d.avg_delay with
      | some bd, some dd => some (bd, dd)
      | _, _ => none
    let delay_increase := delay_pair.map (fun p => p.2 - p.1)
    let delay_increase_pct := delay_pair.map (fun p => (p.2 - p.1) / (|p.1| + 1) * 100)
    match b.avg_speed, d.avg_speed with
    | some bs, some ds =>
      if bs = 0 then none
      else
        some
          { delay_increase := delay_increase
            delay_increase_pct := delay_increase_pct
            speed_decrease := some (bs - ds)
            speed_decrease_pct := some ((bs - ds) / bs * 100)
            level := impactLevel delay_increase }
    | _, _ =>
      some
        { delay_increase := delay_increase
          delay_increase_pct := delay_increase_pct
          level := impactLevel delay_increase }
  | _, _ => some { level := "unknown" }

/-- The analysis dict returned by `analyze_event_impact` when it has data. -/
structure Analysis where
  event_id : ℕ
  event_name : String
  category : String
  venue_name : String
  before : Option Stats
  during : Option Stats
  impact : Impact
  total_measurements : ℕ
deriving DecidableEq

/-- The two shapes of `analyze_event_impact`'s return dict. -/
inductive AnalyzeOutput
  | noData (reason : String)
  | result (a : Analysis)
deriving DecidableEq

/-- Chronological sort key used by `analyze_event_impact` (Python `sorted`
is a stable sort on `measurement_time`). -/
def timeLE (a b : Measurement) : Prop := a.measurement_time ≤ b.measurement_time

instance : DecidableRel timeLE := fun a b => Int.decLe _ _

instance : IsTotal Measurement timeLE := ⟨fun a b => Int.le_total _ _⟩

instance : IsTrans Measurement timeLE := ⟨fun _ _ _ => Int.le_trans⟩

/-- `sorted(measurements, key=lambda m: m['measurement_time'])`. -/
def sortMeasurements (measurements : List Measurement) : List Measurement :=
  List.insertionSort timeLE measurements

/-- `measurements` after the chronological sort. -/
def sortedMeasurements (event : AnalysisEvent) : List Measurement :=
  sortMeasurements event.traffic_measurements

/-- `before_measurements = measurements[:mid_point]` with `mid_point = len // 2`. -/
def before_measurements (event : AnalysisEvent) : List Measurement :=
  (sortedMeasurements event).take ((sortedMeasurements event).length / 2)

/-- `during_measurements = measurements[mid_point:]`. -/
def during_measurements (event : AnalysisEvent) : List Measurement :=
  (sortedMeasurements event).drop ((sortedMeasurements event).length / 2)

/-- `before_stats = calc_stats(before_measurements)`. -/
def before_stats (event : AnalysisEvent) : Option Stats :=
  calc_stats (before_measurements event)

/-- `during_stats = calc_stats(during_measurements)`. -/
def during_stats (event : AnalysisEvent) : Option Stats :=
  calc_stats (during_measurements event)

/-- `analyze_event_impact`; `none` models the uncaught `ZeroDivisionError`
from the unguarded division by `before_stats['avg_speed']`. -/
def analyze_event_impact (event : AnalysisEvent) : Option AnalyzeOutput :=
  if event.traffic_measurements = [] then
    some (.noData "No traffic measurements available")
  else
    match computeImpact (before_stats event) (during_stats event) with
    | none => none
    | some impact =>
      some (.result
        { event_id := event.event_id
          event_name := event.event_name
          category := event.category
          venue_name := event.venue_name
          before := before_stats event
          during := during_stats event
          impact := impact
          total_measurements := event.traffic_measurements.length })

/-! ## analysis/event_traffic_correlation.py — get_impact_summary -/

/-- `impact_levels[level] = impact_levels.get(level, 0) + 1` on an
insertion-ordered dict modelled as an association list. -/
def bumpLevel (m : List (String × ℕ)) (level : String) : List (String × ℕ) :=
  if m.any (fun p => p.1 = level) then
    m.map (fun p => if p.1 = level then (p.1, p.2 + 1) else p)
  else m ++ [(level, 1)]

/-- The `impact_levels` histogram over the analyses. -/
def impactLevelsOf (analyses : List Analysis) : List (String × ℕ) :=
  analyses.foldl (fun m a => bumpLevel m a.impact.level) []

/-- `if cat not in category_impacts: category_impacts[cat] = []`. -/
def addCategory (m : List (String × List ℚ)) (cat : String) : List (String × List ℚ) :=
  if m.any (fun p => p.1 = cat) then m else m ++ [(cat, [])]

/-- `if delay_increase is not None: category_impacts[cat].append(delay_increase)`. -/
def addDelay (m : List (String × List ℚ)) (cat : String) :
    Option ℚ → List (String × List ℚ)
  | none => m
  | some d => m.map (fun p => if p.1 = cat then (p.1, p.2 ++ [d]) else p)

/-- The `category_impacts` dict: per category, the delay increases of its
analyses in input order (events without one contribute nothing). -/
def categoryImpacts (analyses : List Analysis) : List (String × List ℚ) :=
  analyses.foldl
    (fun m a => addDelay (addCategory m a.category) a.category a.impact.delay_increase) []

/-- `category_avg = {cat: sum(delays)/len(delays) if delays else 0 ...}`. -/
def categoryAvg (m : List (String × List ℚ)) : List (String × ℚ) :=
  m.map (fun p => (p.1, if p.2 = [] then 0 else p.2.sum / (p.2.length : ℚ)))

/-- An entry of `top_impact_events`. -/
structure TopEvent where
  event_name : String
  category : String
  venue : String
  delay_increase : Option ℚ
  impact_level : String
deriving DecidableEq

/-- The summary dict: the `{'no_data': True}` sentinel or the full summary. -/
inductive Summary
  | noData
  | stats (total_events_analyzed : ℕ) (impact_levels : List (String × ℕ))
      (category_avg_impact : List (String × ℚ)) (top_impact_events : List TopEvent)
deriving DecidableEq

/-- Sort key for `top_events`: `sorted(..., key=delay_increase, reverse=True)`. -/
def delayGE (a b : Analysis) : Prop :=
  b.impact.delay_increase.getD 0 ≤ a.impact.delay_increase.getD 0

instance : DecidableRel delayGE := fun a b => Rat.instDecidableLe _ _

/-- `get_impact_summary` from analysis/event_traffic_correlation.py. -/
def get_impact_summary (analyses : List Analysis) : Summary :=
  if analyses = [] then .noData
  else
    let total_events := analyses.length
    let impact_levels := impactLevelsOf analyses
    let category_avg := categoryAvg (categoryImpacts analyses)
    let events_with_impact := analyses.filter (fun a => a.impact.delay_increase.isSome)
    let top_events := (List.insertionSort delayGE events_with_impact).take 10
    .stats total_events impact_levels category_avg
      (top_events.map (fun e =>
        { event_name := e.event_name
          category := e.category
          venue := e.venue_name
          delay_increase := e.impact.delay_increase
          impact_level := e.impact.level }))

/-- The `category_avg_impact` component of a summary. -/
def summaryCategoryAvg : Summary → List (String × ℚ)
  | .noData => []
  | .stats _ _ category_avg _ => category_avg

/-- First-match association-list lookup (Python dict access by key). -/
def lookupA {α : Type} (m : List (String × α)) (k : String) : Option α :=
  (m.find? (fun p => p.1 = k)).map (fun p => p.2)

/-- The delay increases contributed to category `cat`, in input order. -/
def delaysOf (analyses : List Analysis) (cat : String) : List ℚ :=
  (analyses.filter (fun a => a.category = cat)).filterMap
    (fun a => a.impact.delay_increase)

/-! ## database/db_utils.py — insert_events -/

/-- An event dict as passed to `insert_events`; `none` marks a missing key
(`event.get(...)` returns `None`). -/
structure EventInput where
  event_name : Option String := none
  venue_name : Option String := none
  event_start_date : Option String := none
  event_end_date : Option String := none
  event_start_time : Option String := none
  event_end_time : Option String := none
  is_multi_day : Option Bool := none
  category : Option String := none
  sponsor : Option String := none
  cost_min : Option ℚ := none
  cost_max : Option ℚ := none
  cost_description : Option String := none
  phone : Option String := none
  email : Option String := none
  ticket_url : Option String := none
  website_url : Option String := none
  expected_attendance : Option ℕ := none
  latitude : Option ℚ := none
  longitude : Option ℚ := none
  source_url : Option String := none
deriving DecidableEq

/-- The in-memory dedup key `(event_name, event_start_date, venue_name)`. -/
def eventKey (e : EventInput) : Option String × Option String × Option String :=
  (e.event_name, e.event_start_date, e.venue_name)

/-- A row of the `events` table (the inserted columns). -/
structure EventRow where
  event_name : Option String
  venue_name : Option String
  event_start_date : Option String
  event_end_date : Option String
  event_start_time : Option String
  event_end_time : Option String
  is_multi_day : Bool
  category : Option String
  sponsor : Option String
  cost_min : Option ℚ
  cost_max : Option ℚ
  cost_description : Option String
  phone : Option String
  email : Option String
  ticket_url : Option String
  website_url : Option String
  expected_attendance : Option ℕ
  latitude : Option ℚ
  longitude : Option ℚ
  source_url : Option String
deriving DecidableEq

/-- The VALUES tuple built for one event (`is_multi_day` defaults to False). -/
def toRow (e : EventInput) : EventRow :=
  { event_name := e.event_name
    venue_name := e.venue_name
    event_start_date := e.event_start_date
    event_end_date := e.event_end_date
    event_start_time := e.event_start_time
    event_end_time := e.event_end_time
    is_multi_day := e.is_multi_day.getD false
    category := e.category
    sponsor := e.sponsor
    cost_min := e.cost_min
    cost_max := e.cost_max
    cost_description := e.cost_description
    phone := e.phone
    email := e.email
    ticket_url := e.ticket_url
    website_url := e.website_url
    expected_attendance := e.expected_attendance
    latitude := e.latitude
    longitude := e.longitude
    source_url := e.source_url }

/-- The unique-constraint key of a stored row. -/
def rowKey (r : EventRow) : Option String × Option String × Option String :=
  (r.event_name, r.event_start_date, r.venue_name)

/-- One step of the dedup loop of `insert_events`: skip an event whose key
was already seen (the `seen` set holds exactly the accumulated keys). -/
def dedupStep (unique_events : List EventInput) (e : EventInput) : List EventInput :=
  if unique_events.any (fun u => eventKey u = eventKey e) then unique_events
  else unique_events ++ [e]

/-- The in-memory dedup loop of `insert_events`: keep the first occurrence
of each `(event_name, event_start_date, venue_name)` key. -/
def dedupEvents (events : List EventInput) : List EventInput :=
  events.foldl dedupStep []

/-- `ON CONFLICT (event_name, event_start_date, venue_name) DO UPDATE`:
on key conflict every mutable column is overwritten with the excluded
row's value (the key columns are equal), otherwise the row is appended. -/
def upsertRow (table : List EventRow) (r : EventRow) : List EventRow :=
  if table.any (fun q => rowKey q = rowKey r) then
    table.map (fun q => if rowKey q = rowKey r then r else q)
  else table ++ [r]

/-- `insert_events`: dedup, single multi-row upsert, and return the count
of unique rows processed. -/
def insert_events (table : List EventRow) (events : List EventInput) :
    List EventRow × ℕ :=
  let unique_events := dedupEvents events
  (unique_events.foldl (fun t e => upsertRow t (toRow e)) table, unique_events.length)

/-! ## Concrete inputs used by the claims -/

/-- Four measurements at minute offsets [-60, -30, +30, +60] with delays
[1.0, 1.0, 4.0, 4.0] (spec's end-to-end scenario). -/
def exampleMeasurements : List Measurement :=
  [ { measurement_time := -60, traffic_level := some "light", delay_minutes := some 1 },
    { measurement_time := -30, traffic_level := some "light", delay_minutes := some 1 },
    { measurement_time := 30, traffic_level := some "heavy", delay_minutes := some 4 },
    { measurement_time := 60, traffic_level := some "heavy", delay_minutes := some 4 } ]

/-- The end-to-end scenario event. -/
def exampleEvent : AnalysisEvent :=
  { event_id := 1, event_name := "Isotopes Baseball", category := "Sports",
    venue_name := "Isotopes Park", traffic_measurements := exampleMeasurements }

/-- The analysis record `analyze_event_impact` produces for `exampleEvent`. -/
def exampleAnalysis : Analysis :=
  { event_id := 1, event_name := "Isotopes Baseball", category := "Sports",
    venue_name := "Isotopes Park",
    before := some
      { count := 2, avg_delay := some 1, max_delay := some 1, avg_speed := none,
        traffic_levels := [some "light", some "light"] },
    during := some
      { count := 2, avg_delay := some 4, max_delay := some 4, avg_speed := none,
        traffic_levels := [some "heavy", some "heavy"] },
    impact :=
      { delay_increase := some 3, delay_increase_pct := some 150,
        speed_decrease := none, speed_decrease_pct := none, level := "high" },
    total_measurements := 4 }

/-- Event whose halves have mean delays 0 and 5 (`delay_increase = 5`). -/
def boundaryEvent : AnalysisEvent :=
  { event_id := 2, event_name := "Boundary", category := "Sports",
    venue_name := "Park",
    traffic_measurements :=
      [ { measurement_time := -10, delay_minutes := some 0 },
        { measurement_time := 10, delay_minutes := some 5 } ] }

/-- Event with mean speeds 30 (before) and 20 (during) and delays 1 and 2. -/
def speedEvent : AnalysisEvent :=
  { event_id := 3, event_name := "Speeds", category := "Music",
    venue_name := "Hall",
    traffic_measurements :=
      [ { measurement_time := -10, avg_speed_mph := some 30, delay_minutes := some 1 },
        { measurement_time := 10, avg_speed_mph := some 20, delay_minutes := some 2 } ] }

/-- Event whose before-half mean speed is 0: the unguarded percentage
division raises in the source. -/
def zeroSpeedEvent : AnalysisEvent :=
  { event_id := 4, event_name := "ZeroSpeed", category := "Music",
    venue_name := "Hall",
    traffic_measurements :=
      [ { measurement_time := -10, avg_speed_mph := some 0 },
        { measurement_time := 10, avg_speed_mph := some 5 } ] }

/-- The analysis record produced for `boundaryEvent`. -/
def boundaryAnalysis : Analysis :=
  { event_id := 2, event_name := "Boundary", category := "Sports",
    venue_name := "Park",
    before := some
      { count := 1, avg_delay := some 0, max_delay := some 0, avg_speed := none,
        traffic_levels := [none] },
    during := some
      { count := 1, avg_delay := some 5, max_delay := some 5, avg_speed := none,
        traffic_levels := [none] },
    impact :=
      { delay_increase := some 5, delay_increase_pct := some 500,
        speed_decrease := none, speed_decrease_pct := none, level := "high" },
    total_measurements := 2 }

/-- The analysis record produced for `speedEvent`. -/
def speedAnalysis : Analysis :=
  { event_id := 3, event_name := "Speeds", category := "Music",
    venue_name := "Hall",
    before := some
      { count := 1, avg_delay := some 1, max_delay := some 1, avg_speed := some 30,
        traffic_levels := [none] },
    during := some
      { count := 1, avg_delay := some 2, max_delay := some 2, avg_speed := some 20,
        traffic_levels := [none] },
    impact :=
      { delay_increase := some 1, delay_increase_pct := some 50,
        speed_decrease := some 10, speed_decrease_pct := some (100 / 3),
        level := "low" },
    total_measurements := 2 }

/-- An analysis whose impact has no `delay_increase` (level unknown). -/
def noDelayAnalysis : Analysis :=
  { event_id := 5, event_name := "NoDelayData", category := "Theater",
    venue_name := "Stage", before := none, during := none,
    impact := { level := "unknown" }, total_measurements := 0 }

/-- An analysis of the same category whose computed `delay_increase` is 0. -/
def zeroDelayAnalysis : Analysis :=
  { event_id := 6, event_name := "ZeroDelay", category := "Theater",
    venue_name := "Stage",
    before := some
      { count := 1, avg_delay := some 2, max_delay := some 2, avg_speed := none,
        traffic_levels := [none] },
    during := some
      { count := 1, avg_delay := some 2, max_delay := some 2, avg_speed := none,
        traffic_levels := [none] },
    impact := { delay_increase := some 0, delay_increase_pct := some 0,
                level := "no impact" },
    total_measurements := 2 }

/-- Route summary with a 70-second traffic delay: 70/60 minutes is not
representable at two decimals, so the stored delay is rounded. -/
def oddSummary : RouteSummary :=
  { lengthInMeters := some 1000, travelTimeInSeconds := some 310,
    noTrafficTravelTimeInSeconds := some 240 }

/-- The measurements table after inserting the `oddSummary` measurement. -/
def oddTable : List TrafficRow :=
  (insert_traffic_measurement [] 1 { t := 0, weekday := 0, hour := 12 }
    (tomtomMeasurementData (measure_traffic_tomtom 0 0 0 0 0 oddSummary) "{}") none).1

/-- Route summary of the spec's round-trip property:
`travel_time_seconds=300, typical_time_seconds=240`. -/
def roundTripSummary : RouteSummary :=
  { lengthInMeters := some 1000, travelTimeInSeconds := some 300,
    noTrafficTravelTimeInSeconds := some 240 }

/-- The measurements table after inserting the round-trip measurement. -/
def roundTripTable : List TrafficRow :=
  (insert_traffic_measurement [] 1 { t := 0, weekday := 0, hour := 12 }
    (tomtomMeasurementData (measure_traffic_tomtom 0 0 0 0 0 roundTripSummary) "{}") none).1

/-- Two event dicts sharing the upsert key but differing in other fields. -/
def eventV1 : EventInput :=
  { event_name := some "Balloon Fiesta", venue_name := some "Balloon Fiesta Park",
    event_start_date := some "2025-10-04", category := some "Festival",
    sponsor := some "AIBF" }

/-- Second version of the same event: same key, different mutable fields. -/
def eventV2 : EventInput :=
  { event_name := some "Balloon Fiesta", venue_name := some "Balloon Fiesta Park",
    event_start_date := some "2025-10-04", category := some "Festivals & Special Events",
    sponsor := some "City", website_url := some "https://balloonfiesta.com" }

/-! ## Theorems -/

/-- Every valid day of month (1-31) falls in one of the four groups. -/
theorem baseline_group_total (day : ℕ) (h1 : 1 ≤ day) (h2 : day ≤ 31) :
    ∃ g, get_current_baseline_group day = some g ∧
      (g = 1 ∨ g = 2 ∨ g = 3 ∨ g = 4) := by
  unfold get_current_baseline_group
  split_ifs with h3 h4 h5 h6
  · exact ⟨1, rfl, Or.inl rfl⟩
  · exact ⟨2, rfl, Or.inr (Or.inl rfl)⟩
  · exact ⟨3, rfl, Or.inr (Or.inr (Or.inl rfl))⟩
  · exact ⟨4, rfl, Or.inr (Or.inr (Or.inr rfl))⟩
  · exfalso; omega

/-- Claim C7: `get_current_baseline_group` maps day-of-month 1-7 to group 1,
8-14 to group 2, 15-21 to group 3 and 22-31 to group 4 (day 3 gives group 1,
day 10 gives group 2), and `should_collect_baseline_now` returns True exactly
when the day falls in an active group's week and the wall clock is within 15
minutes of one of the six slots 07:00, 12:00, 17:00, 19:00, 21:00, 23:00; a
clock of 07:05 triggers collection and a clock of 07:20 does not. -/
theorem claim_C7 :
    (∀ day : ℕ,
      (1 ≤ day ∧ day ≤ 7 → get_current_baseline_group day = some 1) ∧
      (8 ≤ day ∧ day ≤ 14 → get_current_baseline_group day = some 2) ∧
      (15 ≤ day ∧ day ≤ 21 → get_current_baseline_group day = some 3) ∧
      (22 ≤ day ∧ day ≤ 31 → get_current_baseline_group day = some 4)) ∧
    get_current_baseline_group 3 = some 1 ∧
    get_current_baseline_group 10 = some 2 ∧
    (∀ day hour minute : ℕ,
      ((should_collect_baseline_now day hour minute).1 = true ↔
        get_current_baseline_group day ≠ none ∧
        ∃ slot ∈ BASELINE_TIME_SLOTS,
          ((hour * 60 + minute : ℤ) - slotMinutes slot).natAbs ≤ 15)) ∧
    (should_collect_baseline_now 3 7 5).1 = true ∧
    (should_collect_baseline_now 3 7 20).1 = false := by
  refine ⟨?_, by decide, by decide, ?_, by decide, by decide⟩
  · intro day
    refine ⟨fun h => ?_, fun h => ?_, fun h => ?_, fun h => ?_⟩ <;>
      · unfold get_current_baseline_group
        split_ifs <;> first | rfl | (exfalso; omega)
  · intro day hour minute
    unfold should_collect_baseline_now
    cases hg : get_current_baseline_group day with
    | none => simp
    | some g =>
      cases hf : BASELINE_TIME_SLOTS.find?
          (fun slot => ((hour * 60 + minute : ℤ) - slotMinutes slot).natAbs ≤ 15) with
      | none =>
        simp only [hf]
        constructor
        · intro h; simp at h
        · rintro ⟨-, slot, hmem, hle⟩
          have hx := List.find?_eq_none.mp hf slot hmem
          simp only [decide_eq_true_eq] at hx
          exact absurd hle hx
      | some slot =>
        simp only [hf]
        constructor
        · intro _
          refine ⟨by simp [hg], slot, List.mem_of_find?_eq_some hf, ?_⟩
          have hp := List.find?_some hf
          simpa using hp
        · intro _; trivial

/-- Witness for C7 at concrete inputs. -/
theorem claim_C7_witness :
    get_current_baseline_group 3 = some 1 ∧
    get_current_baseline_group 10 = some 2 ∧
    get_current_baseline_group 22 = some 4 := by
  exact ⟨(claim_C7.1 3).1 (by omega), (claim_C7.1 10).2.1 (by omega),
    (claim_C7.1 22).2.2.2 (by omega)⟩

/-- Claim C10: for every valid date (day of month 1-31)
`get_current_baseline_group` returns one of the groups 1-4 and never None,
so the `group is None` branch of `should_collect_baseline_now` (and the
"Not in a baseline collection week" branch of `run_baseline_collection`,
which fires on the same condition) is unreachable: the group component of
the scheduler's answer is always set. -/
theorem claim_C10 (day hour minute : ℕ) (h1 : 1 ≤ day) (h2 : day ≤ 31) :
    (get_current_baseline_group day = some 1 ∨
     get_current_baseline_group day = some 2 ∨
     get_current_baseline_group day = some 3 ∨
     get_current_baseline_group day = some 4) ∧
    get_current_baseline_group day ≠ none ∧
    ((should_collect_baseline_now day hour minute).2.1).isSome = true := by
  obtain ⟨g, hg, hcases⟩ := baseline_group_total day h1 h2
  refine ⟨?_, by rw [hg]; simp, ?_⟩
  · rcases hcases with rfl | rfl | rfl | rfl
    · exact Or.inl hg
    · exact Or.inr (Or.inl hg)
    · exact Or.inr (Or.inr (Or.inl hg))
    · exact Or.inr (Or.inr (Or.inr hg))
  · unfold should_collect_baseline_now
    rw [hg]
    cases hf : BASELINE_TIME_SLOTS.find?
        (fun slot => ((hour * 60 + minute : ℤ) - slotMinutes slot).natAbs ≤ 15) <;>
      simp only [hf] <;> rfl

/-- Witness for C10 at a concrete date and clock. -/
theorem claim_C10_witness :
    (get_current_baseline_group 17 = some 1 ∨
     get_current_baseline_group 17 = some 2 ∨
     get_current_baseline_group 17 = some 3 ∨
     get_current_baseline_group 17 = some 4) ∧
    get_current_baseline_group 17 ≠ none ∧
    ((should_collect_baseline_now 17 23 59).2.1).isSome = true :=
  claim_C10 17 23 59 (by omega) (by omega)

/-- Claim C8: `should_collect_now_tomtom` collects exactly when the signed
minute difference between the event start and the clock is within 15
minutes of one of the offsets -120, -90, -60, -30, 0, +30, +60, +90, +120,
and labels the matched offset's window "before" when the offset is < -15,
"after" when it is > 15, and "during" otherwise. -/
theorem claim_C8 (time_diff_minutes : ℚ) :
    ((should_collect_now_tomtom time_diff_minutes).collect = true ↔
      ∃ target ∈ collection_points, |time_diff_minutes - (target : ℚ)| ≤ 15) ∧
    (∀ target : ℤ,
      (should_collect_now_tomtom time_diff_minutes).collection_point = some target →
      target ∈ collection_points ∧ |time_diff_minutes - (target : ℚ)| ≤ 15 ∧
      (should_collect_now_tomtom time_diff_minutes).window =
        some (if target < -15 then "before"
              else if target > 15 then "after" else "during")) := by
  unfold should_collect_now_tomtom
  cases hf : collection_points.find?
      (fun (target_minutes : ℤ) => |time_diff_minutes - (target_minutes : ℚ)| ≤ 15) with
  | none =>
    refine ⟨⟨fun h => by simp at h, ?_⟩, fun target ht => by simp at ht⟩
    rintro ⟨target, hmem, hle⟩
    have hx := List.find?_eq_none.mp hf target hmem
    simp only [decide_eq_true_eq] at hx
    exact absurd hle hx
  | some t0 =>
    refine ⟨⟨fun _ => ?_, fun _ => rfl⟩, fun target ht => ?_⟩
    · exact ⟨t0, List.mem_of_find?_eq_some hf, by simpa using List.find?_some hf⟩
    · simp only [Option.some.injEq] at ht
      subst ht
      exact ⟨List.mem_of_find?_eq_some hf, by simpa using List.find?_some hf, rfl⟩

/-- Witness for C8 at concrete time differences. -/
theorem claim_C8_witness :
    (should_collect_now_tomtom 100).collect = true ∧
    ((0 : ℤ) ∈ collection_points ∧ |(0 : ℚ) - ((0 : ℤ) : ℚ)| ≤ 15 ∧
      (should_collect_now_tomtom 0).window =
        some (if (0 : ℤ) < -15 then "before"
              else if (0 : ℤ) > 15 then "after" else "during")) :=
  ⟨(claim_C8 100).1.mpr ⟨90, by decide, by norm_num⟩, (claim_C8 0).2 0 (by decide)⟩

/-- Claim C6: `get_collection_plan` is a pure function of the event dict:
an event with no `event_start_time` yields collect=False; an event is major
exactly when its category contains one of the fixed keywords
case-insensitively; every major event (single- or multi-day alike) gets 4
directions, collect before and after, 1-hour offsets on each side and 8
estimated calls; every minor event gets 2 directions, collect before only
and 2 estimated calls; category "Sports" gives (4, after=True, 8) and
"Arts & Culture" gives (2, after=False, 2). -/
theorem claim_C6 :
    (∀ e : PlannerEvent, e.event_start_time = none →
      (get_collection_plan e).collect = false) ∧
    (∀ category : String, is_major_event category = true ↔
      ∃ cat ∈ MAJOR_CATEGORIES, (pyLower cat).toList <:+: (pyLower category).toList) ∧
    (∀ e : PlannerEvent, pyTruthyStr e.event_start_time = true →
      is_major_event (e.category.getD "") = true →
      (get_collection_plan e).collect = true ∧
      (get_collection_plan e).num_directions = some 4 ∧
      (get_collection_plan e).collect_before = some true ∧
      (get_collection_plan e).collect_after = some true ∧
      (get_collection_plan e).hours_before = some 1 ∧
      (get_collection_plan e).hours_after = some 1 ∧
      (get_collection_plan e).estimated_calls = some 8) ∧
    (∀ e : PlannerEvent, pyTruthyStr e.event_start_time = true →
      is_major_event (e.category.getD "") = false →
      (get_collection_plan e).collect = true ∧
      (get_collection_plan e).num_directions = some 2 ∧
      (get_collection_plan e).collect_before = some true ∧
      (get_collection_plan e).collect_after = some false ∧
      (get_collection_plan e).hours_before = some 1 ∧
      (get_collection_plan e).estimated_calls = some 2) ∧
    ((get_collection_plan
        { event_start_time := some "18:35:00", category := some "Sports" }).num_directions
          = some 4 ∧
     (get_collection_plan
        { event_start_time := some "18:35:00", category := some "Sports" }).collect_after
          = some true ∧
     (get_collection_plan
        { event_start_time := some "18:35:00", category := some "Sports" }).estimated_calls
          = some 8) ∧
    ((get_collection_plan
        { event_start_time := some "19:00:00", category := some "Arts & Culture" }).num_directions
          = some 2 ∧
     (get_collection_plan
        { event_start_time := some "19:00:00", category := some "Arts & Culture" }).collect_after
          = some false ∧
     (get_collection_plan
        { event_start_time := some "19:00:00", category := some "Arts & Culture" }).estimated_calls
          = some 2) := by
  refine ⟨?_, ?_, ?_, ?_, by decide, by decide⟩
  · intro e h
    simp [get_collection_plan, h, pyTruthyStr]
  · intro category
    unfold is_major_event pyIn
    rw [List.any_eq_true]
    simp only [decide_eq_true_eq]
  · intro e ht hm
    cases hmd : e.is_multi_day <;>
      simp [get_collection_plan, ht, hm, hmd]
  · intro e ht hm
    cases hmd : e.is_multi_day <;>
      simp [get_collection_plan, ht, hm, hmd]

/-- Witness for C6 at concrete events. -/
theorem claim_C6_witness :
    (get_collection_plan { category := some "General" }).collect = false ∧
    (get_collection_plan
      { event_start_time := some "06:00:00", category := some "Festival",
        is_multi_day := true }).estimated_calls = some 8 ∧
    (get_collection_plan
      { event_start_time := some "19:00:00",
        category := some "Arts & Culture" }).estimated_calls = some 2 :=
  ⟨claim_C6.1 { category := some "General" } rfl,
   (claim_C6.2.2.1
      { event_start_time := some "06:00:00", category := some "Festival",
        is_multi_day := true } (by decide) (by decide)).2.2.2.2.2.2,
   (claim_C6.2.2.2.1
      { event_start_time := some "19:00:00", category := some "Arts & Culture" }
      (by decide) (by decide)).2.2.2.2.2⟩

/-- Inversion for a successful analysis: the returned record carries the
half statistics and the impact computed from them. -/
theorem analyze_result_inv (e : AnalysisEvent) (a : Analysis)
    (h : analyze_event_impact e = some (.result a)) :
    computeImpact (before_stats e) (during_stats e) = some a.impact ∧
    a.before = before_stats e ∧ a.during = during_stats e ∧
    a.total_measurements = e.traffic_measurements.length := by
  unfold analyze_event_impact at h
  split at h
  · simp at h
  · cases hc : computeImpact (before_stats e) (during_stats e) with
    | none => rw [hc] at h; simp at h
    | some imp =>
      rw [hc] at h
      simp only [Option.some.injEq, AnalyzeOutput.result.injEq] at h
      subst h
      refine ⟨?_, rfl, rfl, rfl⟩
      simpa using hc

/-- Every impact dict built by `computeImpact` classifies its own
`delay_increase` (level "unknown" when it is absent). -/
theorem computeImpact_level_eq (bs ds : Option Stats) (imp : Impact)
    (h : computeImpact bs ds = some imp) :
    imp.level = impactLevel imp.delay_increase := by
  unfold computeImpact at h
  cases bs with
  | none =>
    cases ds <;> (dsimp only at h; injection h with h; subst h; rfl)
  | some b =>
    cases ds with
    | none =>
      dsimp only at h; injection h with h; subst h; rfl
    | some dstats =>
      dsimp only at h
      cases hbd : b.avg_delay <;> cases hdd : dstats.avg_delay <;>
        rw [hbd, hdd] at h <;>
        cases hbs : b.avg_speed <;> cases hds : dstats.avg_speed <;>
        rw [hbs, hds] at h <;> dsimp only at h
      all_goals
        first
        | (split at h
           · cases h
           · injection h with h; subst h; rfl)
        | (injection h with h; subst h; rfl)

/-- The delay-delta formulas of `computeImpact` when both halves have a
mean delay. -/
theorem computeImpact_delay_fields (b dstats : Stats) (imp : Impact) (bd dd : ℚ)
    (hbd : b.avg_delay = some bd) (hdd : dstats.avg_delay = some dd)
    (h : computeImpact (some b) (some dstats) = some imp) :
    imp.delay_increase = some (dd - bd) ∧
    imp.delay_increase_pct = some ((dd - bd) / (|bd| + 1) * 100) := by
  unfold computeImpact at h
  dsimp only at h
  rw [hbd, hdd] at h
  cases hbs : b.avg_speed <;> cases hds : dstats.avg_speed <;>
    rw [hbs, hds] at h <;> dsimp only at h
  all_goals
    first
    | (split at h
       · cases h
       · injection h with h; subst h; exact ⟨rfl, rfl⟩)
    | (injection h with h; subst h; exact ⟨rfl, rfl⟩)

/-- The speed-delta formulas of `computeImpact` when both halves have a
mean speed (the division is only reached when the before speed is not 0). -/
theorem computeImpact_speed_fields (b dstats : Stats) (imp : Impact) (bsp dsp : ℚ)
    (hbs : b.avg_speed = some bsp) (hds : dstats.avg_speed = some dsp)
    (h : computeImpact (some b) (some dstats) = some imp) :
    imp.speed_decrease = some (bsp - dsp) ∧
    imp.speed_decrease_pct = some ((bsp - dsp) / bsp * 100) := by
  unfold computeImpact at h
  dsimp only at h
  rw [hbs, hds] at h
  cases hbd : b.avg_delay <;> cases hdd : dstats.avg_delay <;>
    rw [hbd, hdd] at h <;> dsimp only at h <;>
    (split at h
     · cases h
     · injection h with h; subst h; exact ⟨rfl, rfl⟩)

/-- When both halves carry a mean speed and the before mean speed is zero,
the impact computation raises (modelled as `none`). -/
theorem computeImpact_zero_speed (b dstats : Stats) (s2 : ℚ)
    (hbs : b.avg_speed = some 0) (hds : dstats.avg_speed = some s2) :
    computeImpact (some b) (some dstats) = none := by
  unfold computeImpact
  dsimp only
  rw [hbs, hds]
  cases hbd : b.avg_delay <;> cases hdd : dstats.avg_delay <;> simp

/-- Claim C2: for every analyzed event with a computed `delay_increase` the
impact level is assigned by the strict-comparison chain ==0 → no impact,
>5 → severe, >2 → high, >1 → moderate, >0 → low, <0 → no impact; in
particular 5.0 is "high", 5.01 "severe", 0 "no impact" and -1 "no impact". -/
theorem claim_C2 :
    (∀ (e : AnalysisEvent) (a : Analysis) (d : ℚ),
      analyze_event_impact e = some (.result a) →
      a.impact.delay_increase = some d →
      a.impact.level = classify_delay_increase d) ∧
    (∀ d : ℚ,
      (d = 0 → classify_delay_increase d = "no impact") ∧
      (d > 5 → classify_delay_increase d = "severe") ∧
      (2 < d → d ≤ 5 → classify_delay_increase d = "high") ∧
      (1 < d → d ≤ 2 → classify_delay_increase d = "moderate") ∧
      (0 < d → d ≤ 1 → classify_delay_increase d = "low") ∧
      (d < 0 → classify_delay_increase d = "no impact")) ∧
    classify_delay_increase 5 = "high" ∧
    classify_delay_increase (501 / 100) = "severe" ∧
    classify_delay_increase 0 = "no impact" ∧
    classify_delay_increase (-1) = "no impact" := by
  refine ⟨?_, ?_, by decide, by decide, by decide, by decide⟩
  · intro e a d h hd
    obtain ⟨hc, -, -, -⟩ := analyze_result_inv e a h
    have hl := computeImpact_level_eq _ _ _ hc
    rw [hl, hd]
    rfl
  · intro d
    refine ⟨fun h => ?_, fun h => ?_, fun h1 h2 => ?_, fun h1 h2 => ?_,
      fun h1 h2 => ?_, fun h => ?_⟩ <;>
      (unfold classify_delay_increase; split_ifs <;> first | rfl | linarith)

/-- Witness for C2: the boundary event has delay_increase 5 and its stored
level agrees with the classifier, which maps 5 to "high". -/
theorem claim_C2_witness :
    boundaryAnalysis.impact.level = classify_delay_increase 5 ∧
    classify_delay_increase 5 = "high" :=
  ⟨claim_C2.1 boundaryEvent boundaryAnalysis 5 (by decide) (by decide),
   (claim_C2.2.1 5).2.2.1 (by norm_num) (by norm_num)⟩

/-- Claim C1: `analyze_event_impact` sorts the measurements chronologically
and splits them at the midpoint index (count-based, not time-based): the
first `floor(n/2)` sorted measurements are the before half, the rest the
during half; in the 4-measurement scenario with delays [1,1,4,4] the halves
have mean delays 1 and 4, delay_increase 3, classified "high". -/
theorem claim_C1 :
    (∀ e : AnalysisEvent,
      before_measurements e =
        (sortMeasurements e.traffic_measurements).take
          (e.traffic_measurements.length / 2) ∧
      during_measurements e =
        (sortMeasurements e.traffic_measurements).drop
          (e.traffic_measurements.length / 2) ∧
      List.Sorted timeLE (sortMeasurements e.traffic_measurements) ∧
      (sortMeasurements e.traffic_measurements).Perm e.traffic_measurements) ∧
    (∀ (e : AnalysisEvent) (a : Analysis),
      e.traffic_measurements ≠ [] →
      analyze_event_impact e = some (.result a) →
      a.before = calc_stats (before_measurements e) ∧
      a.during = calc_stats (during_measurements e) ∧
      a.total_measurements = e.traffic_measurements.length) ∧
    analyze_event_impact exampleEvent = some (.result exampleAnalysis) ∧
    exampleAnalysis.before.bind (fun s => s.avg_delay) = some 1 ∧
    exampleAnalysis.during.bind (fun s => s.avg_delay) = some 4 ∧
    exampleAnalysis.impact.delay_increase = some 3 ∧
    exampleAnalysis.impact.level = "high" := by
  refine ⟨?_, ?_, by decide, by decide, by decide, by decide, by decide⟩
  · intro e
    refine ⟨?_, ?_, ?_, ?_⟩
    · unfold before_measurements sortedMeasurements sortMeasurements
      rw [List.length_insertionSort]
    · unfold during_measurements sortedMeasurements sortMeasurements
      rw [List.length_insertionSort]
    · exact List.sorted_insertionSort timeLE e.traffic_measurements
    · exact List.perm_insertionSort timeLE e.traffic_measurements
  · intro e a hne h
    obtain ⟨-, hb, hd, ht⟩ := analyze_result_inv e a h
    exact ⟨hb, hd, ht⟩

/-- Witness for C1 at the end-to-end scenario event. -/
theorem claim_C1_witness :
    exampleAnalysis.before = calc_stats (before_measurements exampleEvent) ∧
    exampleAnalysis.during = calc_stats (during_measurements exampleEvent) ∧
    exampleAnalysis.total_measurements =
      exampleEvent.traffic_measurements.length :=
  claim_C1.2.1 exampleEvent exampleAnalysis (by decide) (by decide)

/-- Claim C4: for every analyzed event with both mean delays present,
`delay_increase = during - before` exactly and
`delay_increase_pct = (during - before) / (|before| + 1) * 100` with the +1
zero-avoidance term preserved; with both mean speeds present and before
speed nonzero, `speed_decrease_pct = (before - during) / before * 100`; the
division is unguarded, so a before mean speed of 0 makes the computation
raise (modelled as `none`). -/
theorem claim_C4 :
    (∀ (e : AnalysisEvent) (a : Analysis) (b dstats : Stats) (d1 d2 : ℚ),
      analyze_event_impact e = some (.result a) →
      a.before = some b → a.during = some dstats →
      b.avg_delay = some d1 → dstats.avg_delay = some d2 →
      a.impact.delay_increase = some (d2 - d1) ∧
      a.impact.delay_increase_pct = some ((d2 - d1) / (|d1| + 1) * 100)) ∧
    (∀ (e : AnalysisEvent) (a : Analysis) (b dstats : Stats) (s1 s2 : ℚ),
      analyze_event_impact e = some (.result a) →
      a.before = some b → a.during = some dstats →
      b.avg_speed = some s1 → dstats.avg_speed = some s2 → s1 ≠ 0 →
      a.impact.speed_decrease = some (s1 - s2) ∧
      a.impact.speed_decrease_pct = some ((s1 - s2) / s1 * 100)) ∧
    (∀ (e : AnalysisEvent) (b dstats : Stats) (s2 : ℚ),
      e.traffic_measurements ≠ [] →
      before_stats e = some b → during_stats e = some dstats →
      b.avg_speed = some 0 → dstats.avg_speed = some s2 →
      analyze_event_impact e = none) := by
  refine ⟨?_, ?_, ?_⟩
  · intro e a b dstats d1 d2 h hb hd h1 h2
    obtain ⟨hc, hbe, hde, -⟩ := analyze_result_inv e a h
    rw [hbe] at hb
    rw [hde] at hd
    rw [hb, hd] at hc
    exact computeImpact_delay_fields b dstats a.impact d1 d2 h1 h2 hc
  · intro e a b dstats s1 s2 h hb hd h1 h2 hs
    obtain ⟨hc, hbe, hde, -⟩ := analyze_result_inv e a h
    rw [hbe] at hb
    rw [hde] at hd
    rw [hb, hd] at hc
    exact computeImpact_speed_fields b dstats a.impact s1 s2 h1 h2 hc
  · intro e b dstats s2 hne hb hd hbs hds
    unfold analyze_event_impact
    rw [if_neg hne, hb, hd, computeImpact_zero_speed b dstats s2 hbs hds]

/-- Witness for C4 at the concrete speed events. -/
theorem claim_C4_witness :
    (speedAnalysis.impact.delay_increase = some ((2 : ℚ) - 1) ∧
     speedAnalysis.impact.delay_increase_pct =
       some (((2 : ℚ) - 1) / (|(1 : ℚ)| + 1) * 100)) ∧
    (speedAnalysis.impact.speed_decrease = some ((30 : ℚ) - 20) ∧
     speedAnalysis.impact.speed_decrease_pct =
       some (((30 : ℚ) - 20) / 30 * 100)) ∧
    analyze_event_impact zeroSpeedEvent = none :=
  ⟨claim_C4.1 speedEvent speedAnalysis _ _ 1 2 (by decide) rfl rfl rfl rfl,
   claim_C4.2.1 speedEvent speedAnalysis _ _ 30 20 (by decide) rfl rfl rfl rfl
     (by norm_num),
   claim_C4.2.2 zeroSpeedEvent
     { count := 1, avg_delay := none, max_delay := none, avg_speed := some 0,
       traffic_levels := [none] }
     { count := 1, avg_delay := none, max_delay := none, avg_speed := some 5,
       traffic_levels := [none] }
     5 (by decide) (by decide) (by decide) rfl rfl⟩

/-- Counterexample to C3 as stated: a route with travel time 310 s and
typical time 240 s stores delay_minutes 1.17 (rounded to two decimals),
which differs from the exact (310 - 240)/60 = 7/6 minutes. -/
theorem claim_C3_counterexample :
    oddTable.map
      (fun r => (r.travel_time_seconds, r.typical_time_seconds, r.delay_minutes)) =
      [(some 310, some 240, some (117 / 100))] ∧
    (117 : ℚ) / 100 ≠ ((310 : ℚ) - 240) / 60 := by
  constructor
  · decide
  · norm_num

/-- Claim C3 amended: a TomTom measurement stores the two travel times
verbatim and `delay_minutes = round((travel - typical)/60, 2)` — the exact
quotient only when it is representable at two decimals;
`insert_traffic_measurement` stores the three fields of `traffic_data`
verbatim; the spec's round trip (travel 300 s, typical 240 s → delay 1.0)
holds exactly. -/
theorem claim_C3_amended :
    (∀ (now : ℤ) (ola olg dla dlg : ℚ) (s : RouteSummary),
      (measure_traffic_tomtom now ola olg dla dlg s).travel_time_seconds =
        s.travelTimeInSeconds.getD 0 ∧
      (measure_traffic_tomtom now ola olg dla dlg s).typical_time_seconds =
        s.noTrafficTravelTimeInSeconds.getD (s.travelTimeInSeconds.getD 0) ∧
      (measure_traffic_tomtom now ola olg dla dlg s).delay_minutes =
        round2 ((s.travelTimeInSeconds.getD 0 -
          s.noTrafficTravelTimeInSeconds.getD (s.travelTimeInSeconds.getD 0)) / 60)) ∧
    (∀ (table : List TrafficRow) (venue_id : ℕ) (mt : Timestamp)
        (td : TrafficData) (eid : Option ℕ),
      ((insert_traffic_measurement table venue_id mt td eid).1).getLast?.map
        (fun r => (r.delay_minutes, r.travel_time_seconds, r.typical_time_seconds)) =
        some (td.delay_minutes, td.travel_time_seconds, td.typical_time_seconds)) ∧
    roundTripTable.map
      (fun r => (r.travel_time_seconds, r.typical_time_seconds, r.delay_minutes)) =
      [(some 300, some 240, some 1)] := by
  refine ⟨fun now ola olg dla dlg s => ⟨rfl, rfl, rfl⟩, ?_, by decide⟩
  intro table venue_id mt td eid
  unfold insert_traffic_measurement
  rw [List.getLast?_concat]
  rfl

/-- The dedup loop preserves first-match lookup: the first element with a
given key in the output is the first element with that key in the input. -/
theorem dedup_go_find (events acc : List EventInput)
    (k : Option String × Option String × Option String) :
    (events.foldl dedupStep acc).find? (fun e => eventKey e = k) =
      ((acc.find? (fun e => eventKey e = k)).or
        (events.find? (fun e => eventKey e = k))) := by
  induction events generalizing acc with
  | nil => simp
  | cons e es ih =>
    rw [List.foldl_cons, ih (dedupStep acc e)]
    by_cases hk : eventKey e = k
    · by_cases hin : acc.any (fun u => eventKey u = eventKey e) = true
      · have hsome : (acc.find? (fun e => eventKey e = k)).isSome := by
          rw [List.find?_isSome]
          obtain ⟨u, hu, hdec⟩ := List.any_eq_true.mp hin
          rw [decide_eq_true_eq] at hdec
          exact ⟨u, hu, by simp [hdec, hk]⟩
        obtain ⟨u, hu⟩ := Option.isSome_iff_exists.mp hsome
        unfold dedupStep
        rw [if_pos hin, hu]
        simp
      · have hnone : acc.find? (fun e => eventKey e = k) = none := by
          rw [List.find?_eq_none]
          intro u hu hdec
          rw [decide_eq_true_eq] at hdec
          exact hin (List.any_eq_true.mpr ⟨u, hu, by simp [hdec, hk]⟩)
        unfold dedupStep
        rw [if_neg hin, List.find?_append, hnone]
        simp [hk]
    · have he : (List.find? (fun e => decide (eventKey e = k)) [e]) = none := by
        simp [hk]
      unfold dedupStep
      by_cases hin : acc.any (fun u => eventKey u = eventKey e) = true
      · rw [if_pos hin]
        simp [List.find?_cons_of_neg, hk]
      · rw [if_neg hin, List.find?_append, he, Option.or_none]
        rw [List.find?_cons_of_neg _ (by simp [hk])]

/-- The dedup loop never emits two elements with the same key. -/
theorem dedup_go_nodup (events acc : List EventInput)
    (h : (acc.map eventKey).Nodup) :
    ((events.foldl dedupStep acc).map eventKey).Nodup := by
  induction events generalizing acc with
  | nil => simpa
  | cons e es ih =>
    rw [List.foldl_cons]
    apply ih
    unfold dedupStep
    split
    · exact h
    · rename_i hin
      rw [List.map_append, List.nodup_append]
      refine ⟨h, by simp, ?_⟩
      intro x hx hx'
      simp only [List.map_cons, List.map_nil, List.mem_singleton] at hx'
      subst hx'
      obtain ⟨u, hu, hui⟩ := List.mem_map.mp hx
      exact hin (List.any_eq_true.mpr ⟨u, hu, by simp [hui]⟩)

/-- In the conflict branch of the upsert, the first row with the excluded
row's key becomes exactly the excluded row. -/
theorem find_map_update (t : List EventRow) (r : EventRow)
    (hin : t.any (fun q => rowKey q = rowKey r) = true) :
    (t.map (fun q => if rowKey q = rowKey r then r else q)).find?
      (fun q => rowKey q = rowKey r) = some r := by
  induction t with
  | nil => simp at hin
  | cons q ts ih =>
    rw [List.map_cons]
    by_cases hq : rowKey q = rowKey r
    · rw [if_pos hq, List.find?_cons_of_pos _ (by simp)]
    · rw [if_neg hq, List.find?_cons_of_neg _ (by simp [hq])]
      apply ih
      rcases List.any_eq_true.mp hin with ⟨u, hu, hud⟩
      rcases List.mem_cons.mp hu with rfl | hu'
      · exact absurd (by simpa using hud) hq
      · exact List.any_eq_true.mpr ⟨u, hu', hud⟩

/-- After an upsert, looking up the upserted key returns the new row. -/
theorem upsertRow_find (t : List EventRow) (r : EventRow) :
    (upsertRow t r).find? (fun q => rowKey q = rowKey r) = some r := by
  unfold upsertRow
  split
  · rename_i hin
    exact find_map_update t r hin
  · rename_i hin
    have h0 : t.find? (fun q => rowKey q = rowKey r) = none := by
      rw [List.find?_eq_none]
      intro q hq hd
      exact hin (List.any_eq_true.mpr ⟨q, hq, hd⟩)
    rw [List.find?_append, h0]
    simp

/-- Updating rows in place does not change how many rows carry the key. -/
theorem countP_map_update (t : List EventRow) (r : EventRow) :
    (t.map (fun q => if rowKey q = rowKey r then r else q)).countP
      (fun q => rowKey q = rowKey r) =
      t.countP (fun q => rowKey q = rowKey r) := by
  induction t with
  | nil => rfl
  | cons q ts ih =>
    rw [List.map_cons]
    by_cases hq : rowKey q = rowKey r
    · rw [if_pos hq, List.countP_cons_of_pos _ _ (by simp),
        List.countP_cons_of_pos _ _ (by simp [hq]), ih]
    · rw [if_neg hq, List.countP_cons_of_neg _ _ (by simp [hq]),
        List.countP_cons_of_neg _ _ (by simp [hq]), ih]

/-- In a table with unique keys, a key that occurs occurs exactly once. -/
theorem nodup_count_one (t : List EventRow)
    (k : Option String × Option String × Option String)
    (hnd : (t.map rowKey).Nodup) (hin : t.any (fun q => rowKey q = k) = true) :
    t.countP (fun q => rowKey q = k) = 1 := by
  induction t with
  | nil => simp at hin
  | cons q ts ih =>
    rw [List.map_cons, List.nodup_cons] at hnd
    by_cases hq : rowKey q = k
    · rw [List.countP_cons_of_pos _ _ (by simp [hq])]
      have h0 : ts.countP (fun q => rowKey q = k) = 0 := by
        rw [List.countP_eq_zero]
        intro u hu hud
        rw [decide_eq_true_eq] at hud
        exact hnd.1 (hq ▸ hud ▸ List.mem_map_of_mem rowKey hu)
      rw [h0]
    · rw [List.countP_cons_of_neg _ _ (by simp [hq])]
      apply ih hnd.2
      rcases List.any_eq_true.mp hin with ⟨u, hu, hud⟩
      rcases List.mem_cons.mp hu with rfl | hu'
      · exact absurd (by simpa using hud) hq
      · exact List.any_eq_true.mpr ⟨u, hu', hud⟩

/-- An upsert into a key-unique table leaves exactly one row with the
upserted key. -/
theorem upsert_countP (t : List EventRow) (r : EventRow)
    (hnd : (t.map rowKey).Nodup) :
    (upsertRow t r).countP (fun q => rowKey q = rowKey r) = 1 := by
  unfold upsertRow
  split
  · rename_i hin
    rw [countP_map_update]
    exact nodup_count_one t (rowKey r) hnd hin
  · rename_i hin
    have h0 : t.countP (fun q => rowKey q = rowKey r) = 0 := by
      rw [List.countP_eq_zero]
      intro q hq hd
      exact hin (List.any_eq_true.mpr ⟨q, hq, hd⟩)
    rw [List.countP_append, h0]
    simp

/-- Upserts preserve key uniqueness of the table. -/
theorem upsert_nodup (t : List EventRow) (r : EventRow)
    (hnd : (t.map rowKey).Nodup) :
    ((upsertRow t r).map rowKey).Nodup := by
  unfold upsertRow
  split
  · rename_i hin
    have hmap : (t.map (fun q => if rowKey q = rowKey r then r else q)).map rowKey
        = t.map rowKey := by
      rw [List.map_map]
      apply List.map_congr_left
      intro q hq
      by_cases hx : rowKey q = rowKey r
      · simp [hx]
      · simp [hx]
    rw [hmap]
    exact hnd
  · rename_i hin
    rw [List.map_append, List.nodup_append]
    refine ⟨hnd, by simp, ?_⟩
    intro x hx hx'
    simp only [List.map_cons, List.map_nil, List.mem_singleton] at hx'
    subst hx'
    obtain ⟨q, hq, hqe⟩ := List.mem_map.mp hx
    exact hin (List.any_eq_true.mpr ⟨q, hq, by simp [hqe]⟩)

/-- Claim C9: `insert_events` deduplicates the batch by
(event_name, event_start_date, venue_name) keeping the first occurrence,
upserts with ON CONFLICT DO UPDATE semantics overwriting every mutable
field, and returns the count of unique rows processed; two successive
inserts with the same key leave exactly one row for that key, carrying the
second insert's field values. -/
theorem claim_C9 :
    (∀ (events : List EventInput)
        (k : Option String × Option String × Option String),
      (dedupEvents events).find? (fun e => eventKey e = k) =
        events.find? (fun e => eventKey e = k)) ∧
    (∀ events : List EventInput, ((dedupEvents events).map eventKey).Nodup) ∧
    (∀ (table : List EventRow) (events : List EventInput),
      (insert_events table events).2 = (dedupEvents events).length) ∧
    (∀ (table : List EventRow) (e1 e2 : EventInput),
      (table.map rowKey).Nodup → eventKey e1 = eventKey e2 →
      ((insert_events (insert_events table [e1]).1 [e2]).1).countP
          (fun q => rowKey q = rowKey (toRow e2)) = 1 ∧
      ((insert_events (insert_events table [e1]).1 [e2]).1).find?
          (fun q => rowKey q = rowKey (toRow e2)) = some (toRow e2)) := by
  refine ⟨?_, ?_, fun table events => rfl, ?_⟩
  · intro events k
    have h := dedup_go_find events [] k
    simpa [dedupEvents] using h
  · intro events
    exact dedup_go_nodup events [] (by simp)
  · intro table e1 e2 hnd hk
    exact ⟨upsert_countP (upsertRow table (toRow e1)) (toRow e2)
        (upsert_nodup table (toRow e1) hnd),
      upsertRow_find (upsertRow table (toRow e1)) (toRow e2)⟩

/-- Witness for C9: the Balloon Fiesta event inserted twice (second version
with different mutable fields) leaves one row carrying the second version. -/
theorem claim_C9_witness :
    ((insert_events (insert_events [] [eventV1]).1 [eventV2]).1).countP
        (fun q => rowKey q = rowKey (toRow eventV2)) = 1 ∧
    ((insert_events (insert_events [] [eventV1]).1 [eventV2]).1).find?
        (fun q => rowKey q = rowKey (toRow eventV2)) = some (toRow eventV2) :=
  claim_C9.2.2.2 [] eventV1 eventV2 (by simp) (by decide)

/-- A key-preserving map commutes with first-match lookup. -/
theorem find?_map_keyfix {α β : Type} (m : List (String × α))
    (f : String × α → String × β) (hf : ∀ p, (f p).1 = p.1) (k : String) :
    (m.map f).find? (fun p => p.1 = k) =
      (m.find? (fun p => p.1 = k)).map f := by
  induction m with
  | nil => rfl
  | cons p ps ih =>
    rw [List.map_cons]
    by_cases hp : p.1 = k
    · rw [List.find?_cons_of_pos _ (by simp [hf, hp]),
        List.find?_cons_of_pos _ (by simp [hp])]
      rfl
    · rw [List.find?_cons_of_neg _ (by simp [hf, hp]),
        List.find?_cons_of_neg _ (by simp [hp]), ih]

/-- Lookup after registering a category: a fresh category maps to `[]`. -/
theorem lookupA_addCategory (m : List (String × List ℚ)) (c k : String) :
    lookupA (addCategory m c) k =
      if c = k then some ((lookupA m k).getD []) else lookupA m k := by
  unfold addCategory lookupA
  by_cases hk : c = k
  · subst hk
    split
    · rename_i hin
      obtain ⟨p, hp, hpd⟩ := List.any_eq_true.mp hin
      rw [decide_eq_true_eq] at hpd
      have hsome : (m.find? (fun p => p.1 = c)).isSome :=
        List.find?_isSome.mpr ⟨p, hp, by simp [hpd]⟩
      obtain ⟨u, hu⟩ := Option.isSome_iff_exists.mp hsome
      rw [hu]
      simp
    · rename_i hin
      have h0 : m.find? (fun p => p.1 = c) = none := by
        rw [List.find?_eq_none]
        intro p hp hd
        rw [decide_eq_true_eq] at hd
        exact hin (List.any_eq_true.mpr ⟨p, hp, by simp [hd]⟩)
      rw [List.find?_append, h0]
      simp
  · split
    · rfl
    · rw [List.find?_append]
      have h1 : List.find? (fun p => decide (p.1 = k)) [(c, ([] : List ℚ))] = none := by
        simp [hk]
      rw [h1, Option.or_none]

/-- Lookup after appending a delay to a category's bucket. -/
theorem lookupA_addDelay (m : List (String × List ℚ)) (c k : String)
    (d : Option ℚ) :
    lookupA (addDelay m c d) k =
      if c = k then (lookupA m k).map (fun L => L ++ d.toList)
      else lookupA m k := by
  cases d with
  | none =>
    show lookupA m k = _
    by_cases hk : c = k
    · rw [if_pos hk]
      cases h : lookupA m k <;> simp
    · rw [if_neg hk]
  | some v =>
    unfold addDelay lookupA
    rw [find?_map_keyfix m _ (fun p => by by_cases h : p.1 = c <;> simp [h]) k]
    cases hfind : m.find? (fun p => p.1 = k) with
    | none => simp
    | some u =>
      have hu : u.1 = k := by simpa using List.find?_some hfind
      by_cases hc : c = k
      · subst hc
        simp [hu]
      · have : ¬(u.1 = c) := by rw [hu]; exact fun h => hc h.symm
        simp [this, hc]

/-- One step of the `category_impacts` loop, seen through lookup. -/
theorem categoryImpacts_step_lookup (m : List (String × List ℚ))
    (a : Analysis) (k : String) :
    lookupA (addDelay (addCategory m a.category) a.category
        a.impact.delay_increase) k =
      if a.category = k
      then some ((lookupA m k).getD [] ++ a.impact.delay_increase.toList)
      else lookupA m k := by
  rw [lookupA_addDelay, lookupA_addCategory]
  by_cases hk : a.category = k
  · rw [if_pos hk, if_pos hk, if_pos hk]
    rfl
  · rw [if_neg hk, if_neg hk, if_neg hk]

/-- `delaysOf` unfolded over a cons cell. -/
theorem delaysOf_cons (a : Analysis) (as : List Analysis) (k : String) :
    delaysOf (a :: as) k =
      (if a.category = k then a.impact.delay_increase.toList else []) ++
        delaysOf as k := by
  unfold delaysOf
  by_cases h : a.category = k
  · rw [List.filter_cons_of_pos (by simp [h]), List.filterMap_cons]
    cases hd : a.impact.delay_increase <;> simp [h, hd]
  · rw [List.filter_cons_of_neg (by simp [h])]
    simp [h]

/-- The `category_impacts` fold, characterized by lookup: each category's
bucket collects exactly the non-null delay increases of its analyses. -/
theorem categoryImpacts_go_lookup (analyses : List Analysis)
    (m : List (String × List ℚ)) (k : String) :
    lookupA (analyses.foldl
        (fun m a => addDelay (addCategory m a.category) a.category
          a.impact.delay_increase) m) k =
      if (lookupA m k).isSome ∨ k ∈ analyses.map (fun a => a.category)
      then some ((lookupA m k).getD [] ++ delaysOf analyses k)
      else none := by
  induction analyses generalizing m with
  | nil =>
    cases h : lookupA m k <;> simp [delaysOf, h]
  | cons a as ih =>
    rw [List.foldl_cons, ih, categoryImpacts_step_lookup, delaysOf_cons]
    by_cases hk : a.category = k
    · rw [if_pos hk]
      have hsome : (some ((lookupA m k).getD [] ++
          a.impact.delay_increase.toList)).isSome = true := rfl
      have hmem : k ∈ (a :: as).map (fun a => a.category) := by simp [hk]
      rw [if_pos (Or.inl hsome), if_pos (Or.inr hmem)]
      simp [hk, List.append_assoc]
    · rw [if_neg hk]
      have hiff : (k ∈ (a :: as).map (fun a => a.category)) ↔
          (k ∈ as.map (fun a => a.category)) := by
        simp [List.mem_cons]
        intro h
        exact absurd h.symm hk
      by_cases hcond : (lookupA m k).isSome ∨ k ∈ as.map (fun a => a.category)
      · rw [if_pos hcond, if_pos (by rw [hiff]; exact hcond)]
        simp [hk]
      · rw [if_neg hcond, if_neg (by rw [hiff]; exact hcond)]

/-- Per-category lookup into `category_impacts` from an empty accumulator. -/
theorem categoryImpacts_lookup (analyses : List Analysis) (k : String) :
    lookupA (categoryImpacts analyses) k =
      if k ∈ analyses.map (fun a => a.category)
      then some (delaysOf analyses k) else none := by
  unfold categoryImpacts
  rw [categoryImpacts_go_lookup]
  simp [lookupA]

/-- `category_avg` through lookup: mean of the bucket, 0 when it is empty. -/
theorem lookupA_categoryAvg (m : List (String × List ℚ)) (k : String) :
    lookupA (categoryAvg m) k =
      (lookupA m k).map
        (fun L => if L = [] then 0 else L.sum / (L.length : ℚ)) := by
  unfold categoryAvg lookupA
  rw [find?_map_keyfix m
    (fun p => (p.1, if p.2 = [] then 0 else p.2.sum / (p.2.length : ℚ)))
    (fun p => rfl) k]
  cases h : m.find? (fun p => p.1 = k) <;> simp

/-- Counterexample to C5 as stated: a category whose only event lacks a
`delay_increase` gets average 0, identical to a category whose computed
mean delay increase is 0 — missing data is coerced to zero and the two are
indistinguishable in `category_avg_impact`. -/
theorem claim_C5_counterexample :
    summaryCategoryAvg (get_impact_summary [noDelayAnalysis]) =
      [("Theater", 0)] ∧
    summaryCategoryAvg (get_impact_summary [zeroDelayAnalysis]) =
      [("Theater", 0)] ∧
    summaryCategoryAvg (get_impact_summary [noDelayAnalysis]) =
      summaryCategoryAvg (get_impact_summary [zeroDelayAnalysis]) :=
  ⟨by decide, by decide, by decide⟩

/-- Claim C5 amended: `get_impact_summary` returns the `{'no_data': True}`
sentinel on empty input and never divides by zero: per category the average
is taken only over the events that carry a `delay_increase`, but a category
none of whose events carry one is reported with average 0 (not excluded, so
it is indistinguishable from a true zero mean). -/
theorem claim_C5_amended :
    get_impact_summary [] = Summary.noData ∧
    (∀ (analyses : List Analysis) (cat : String),
      analyses ≠ [] →
      lookupA (summaryCategoryAvg (get_impact_summary analyses)) cat =
        if cat ∈ analyses.map (fun a => a.category)
        then some (if delaysOf analyses cat = [] then 0
          else (delaysOf analyses cat).sum / ((delaysOf analyses cat).length : ℚ))
        else none) := by
  refine ⟨rfl, ?_⟩
  intro analyses cat hne
  have h1 : summaryCategoryAvg (get_impact_summary analyses) =
      categoryAvg (categoryImpacts analyses) := by
    unfold get_impact_summary
    rw [if_neg hne]
    rfl
  rw [h1, lookupA_categoryAvg, categoryImpacts_lookup]
  by_cases hm : cat ∈ analyses.map (fun a => a.category)
  · rw [if_pos hm, if_pos hm]
    rfl
  · rw [if_neg hm, if_neg hm]
    rfl

/-- Witness for the amended C5 at a concrete one-element input. -/
theorem claim_C5_witness :
    lookupA (summaryCategoryAvg (get_impact_summary [zeroDelayAnalysis]))
        "Theater" =
      (if "Theater" ∈ [zeroDelayAnalysis].map (fun a => a.category)
       then some (if delaysOf [zeroDelayAnalysis] "Theater" = [] then 0
         else (delaysOf [zeroDelayAnalysis] "Theater").sum /
           ((delaysOf [zeroDelayAnalysis] "Theater").length : ℚ))
       else none) :=
  claim_C5_amended.2 [zeroDelayAnalysis] "Theater" (by simp)

end WhatsPopping
